import Mathlib

/-!
# picam: the camera access coordinator

A shallow embedding of `camera/camera.go`: the mutex-protected state guard
(`cameraState.toState`) and the three operations built on it
(`StartRecording`, `StopRecording`, `Capture`).

* A Go `error` is modelled by its message: `none` is the nil error, `some m`
  is a non-nil error whose `Error()` method returns `m`.
* `cameraStateEnum` is a Go `int`; it is modelled by `Int` (no arithmetic is
  ever done on it, it is only compared and printed).
* External executables (raspistill, raspivid, MP4Box) are the environment:
  their outcomes are parameters of the operations, and every invocation is
  recorded in an event log so that "is not invoked" can be stated.
-/

namespace camera

/-- Go `error` value, identified with the result of `Error()`; `none` is nil. -/
abbrev GoError := Option String

/-- Go `type cameraStateEnum int`. -/
abbrev cameraStateEnum := Int

def stateFree : cameraStateEnum := 0
def stateVideoRecording : cameraStateEnum := 1
def stateVideoStopping : cameraStateEnum := 2
def statePictureTaking : cameraStateEnum := 3

def errorTakingPicture : String := "camera in use, taking picture"
def errorRecordingVideo : String := "camera in use, recording video"
def errorProcessingVideo : String := "camera in use, processing a finished video"
def errorNotRecording : String :=
  "camera was not recording, unable to process stop recording request"
def errorUnexpectedState : String := "unexpected camera state %v"
def errorStopRecording : String := "unexpected error closing camera: %v"

/-- Go `errors.New`. -/
def errorsNew (msg : String) : GoError := some msg

/-- Go `fmt.Sprintf` for a format string whose only verb is a trailing `%v`:
the two characters of the verb are replaced by the rendered argument. -/
def Sprintf (format : String) (arg : String) : String :=
  String.mk (format.data.take (format.data.length - 2)) ++ arg

/-- Go `fmt.Errorf` for the two format strings of this package. -/
def Errorf (format : String) (arg : String) : GoError := some (Sprintf format arg)

/-- The `%v` rendering of a `cameraStateEnum`: a plain decimal integer (the
type has no `String` method). -/
def fmtState (s : cameraStateEnum) : String := toString s

/-- Go `type cameraState struct`; the mutex is not represented: `toState`
holds it for its whole body, so each call is one atomic step. -/
structure cameraState where
  currentState : cameraStateEnum
  deriving DecidableEq, Repr

def newCameraState : cameraState := { currentState := stateFree }

/-- Go `func (cs *cameraState) toState(desiredState cameraStateEnum) error`.
Returns the guard after the call and the error. -/
def cameraState.toState (cs : cameraState) (desiredState : cameraStateEnum) :
    cameraState × GoError :=
  -- operations freeing the state should always work
  let cs1 : cameraState :=
    if desiredState = stateFree then { cs with currentState := stateFree } else cs
  -- switch cs.currentState
  if cs1.currentState = stateFree then
    if desiredState = stateVideoStopping then (cs1, errorsNew errorNotRecording)
    else ({ cs1 with currentState := desiredState }, none)
  else if cs1.currentState = statePictureTaking then
    (cs1, errorsNew errorTakingPicture)
  else if cs1.currentState = stateVideoRecording then
    if desiredState = stateVideoStopping then
      ({ cs1 with currentState := desiredState }, none)
    else (cs1, errorsNew errorRecordingVideo)
  else if cs1.currentState = stateVideoStopping then
    (cs1, errorsNew errorProcessingVideo)
  else
    -- any unhandled states should throw an error
    (cs1, Errorf errorUnexpectedState (fmtState desiredState))

/-- The four named states, in the order of the Go const block. -/
def namedStates : List cameraStateEnum :=
  [stateFree, stateVideoRecording, stateVideoStopping, statePictureTaking]

/-! ## The coordinator -/

/-- Externally visible actions of the coordinator, in program order. -/
inductive Event where
  /-- Go os.Remove(name), best effort. -/
  | removeFile (name : String)
  /-- The goroutine running raspivid bound to context ctx, posting on channel ch. -/
  | launchRecord (ctx : Nat) (ch : Nat)
  /-- A call of the cancel function of context ctx. -/
  | cancel (ctx : Nat)
  /-- Go time.Sleep(20ms). -/
  | sleep
  /-- The still-capture executable: raspistill -o -. -/
  | runCapture
  /-- The transcode executable: MP4Box -add vid.h264 vid.mp4. -/
  | runTranscode
  deriving DecidableEq

/-- Go `type picam struct`. Contexts and channels are identified by a number;
`none` is the Go zero value (nil). -/
structure picam where
  videoCtx : Option Nat
  videoCtxCancel : Option Nat
  recordingStopChan : Option Nat
  cameraState : cameraState
  deriving DecidableEq

/-- Go `NewPicam`. -/
def NewPicam : picam :=
  { videoCtx := none, videoCtxCancel := none, recordingStopChan := none,
    cameraState := newCameraState }

/-- The coordinator together with what it has done so far (oldest event first)
and the next unused context/channel identity. -/
structure World where
  p : picam
  log : List Event
  fresh : Nat
  deriving DecidableEq

def World.start : World := { p := NewPicam, log := [], fresh := 0 }

def World.emit (w : World) (e : Event) : World := { w with log := w.log ++ [e] }

/-- The call `p.cameraState.toState(desired)`: updates the guard in place and
yields the error. -/
def World.toState (w : World) (desired : cameraStateEnum) : World × GoError :=
  let r := w.p.cameraState.toState desired
  ({ w with p := { w.p with cameraState := r.1 } }, r.2)

/-- The statement `p.cameraState.toState(stateFree)` with its result dropped, as in
`defer p.cameraState.toState(stateFree)` and in the init-error branch. -/
def World.free (w : World) : World := (w.toState stateFree).1

/-- Go `func (p *picam) StartRecording() error`.

`early` is what the non-blocking `select` finds on the completion channel
after the settle delay: `none` when the record goroutine has not posted
(the `default` branch), `some o` when it has posted outcome `o`. -/
def StartRecording (w : World) (early : Option GoError) : World × GoError :=
  let r := w.toState stateVideoRecording
  match r.2 with
  | some e => (r.1, some e)
  | none =>
    let w1 := r.1.emit (Event.removeFile "vid.h264")
    let ctx := w1.fresh
    let ch := w1.fresh + 1
    let w2 : World :=
      { w1 with
        p := { w1.p with videoCtx := some ctx, videoCtxCancel := some ctx,
                         recordingStopChan := some ch }
        fresh := w1.fresh + 2 }
    let w3 := (w2.emit (Event.launchRecord ctx ch)).emit Event.sleep
    -- check for init errors
    match early with
    | some initError => (w3.free, initError)
    | none => (w3, none)

/-- How a call of `StopRecording` ends. -/
inductive StopResult where
  /-- A normal return of (filename, err). -/
  | returned (filename : String) (err : GoError)
  /-- A Go runtime error (nil dereference or call of a nil func value). -/
  | panicked
  /-- The receive never completes (nil channel). -/
  | blocked
  deriving DecidableEq

/-- Go `func (p *picam) StopRecording() (filename string, err error)`.

`posted` is the outcome the record goroutine sends on the completion channel
(the result of `cmd.Output()`), `transcode` the error of the MP4Box run.
The deferred `toState(stateFree)` is registered after the guard check; it runs
on every return after that and also while a runtime error unwinds. -/
def StopRecording (w : World) (posted : GoError) (transcode : GoError) :
    World × StopResult :=
  let r := w.toState stateVideoStopping
  match r.2 with
  | some e => (r.1, StopResult.returned "" (some e))
  | none =>
    -- cancel the record command and give time for the video file to be closed
    match r.1.p.videoCtxCancel with
    | none => (r.1.free, StopResult.panicked)
    | some c =>
      let w2 := (r.1.emit (Event.cancel c)).emit Event.sleep
      match w2.p.recordingStopChan with
      | none => (w2, StopResult.blocked)
      | some _ =>
        match posted with
        | none => (w2.free, StopResult.panicked)
        | some m =>
          if m ≠ "signal: killed" then
            (w2.free, StopResult.returned "" (Errorf errorStopRecording m))
          else
            -- convert the video to mp4 format
            let w3 := (w2.emit (Event.removeFile "vid.mp4")).emit Event.runTranscode
            match transcode with
            | some e => (w3.free, StopResult.returned "" (some e))
            | none => (w3.free, StopResult.returned "vid.mp4" none)

/-- Go `func (p *picam) Capture() (picture []byte, err error)`.

`out` is the pair `cmd.Output()` yields for raspistill. A nil slice is the
empty list. -/
def Capture (w : World) (out : List UInt8 × GoError) : World × (List UInt8 × GoError) :=
  let r := w.toState statePictureTaking
  match r.2 with
  | some e => (r.1, ([], some e))
  | none => ((r.1.emit Event.runCapture).free, out)

/-- The events a call added to the log. -/
def newEvents (before after : World) : List Event := after.log.drop before.log.length

/-- A recording session is attached: cancel function and completion channel are set. -/
def World.sessionLive (w : World) : Prop :=
  w.p.videoCtxCancel.isSome = true ∧ w.p.recordingStopChan.isSome = true

instance (w : World) : Decidable w.sessionLive := by
  unfold World.sessionLive; infer_instance

/-- A coordinator whose guard holds the given value, with no session attached:
the situation a caller meets while another caller holds the camera. -/
def World.inState (c : cameraStateEnum) : World :=
  { World.start with p := { NewPicam with cameraState := { currentState := c } } }

/-- The coordinator right after a successful `StartRecording` on a new camera. -/
def World.recording : World := (StartRecording World.start none).1

/-! ## Concurrent callers

The HTTP layer calls the three operations from concurrent goroutines. The
model below interleaves them statement by statement: every `toState` call is
one atomic step (it holds the mutex throughout), and so is every other
statement between two blocking points. -/

/-- What a finished call returned. -/
inductive Ret where
  | capture (out : List UInt8 × GoError)
  | start (err : GoError)
  | stop (r : StopResult)
  deriving DecidableEq

/-- The statement a caller executes next. -/
inductive Pc where
  /-- Capture: about to call toState(statePictureTaking). -/
  | captureGuard
  /-- Capture: guard won, release deferred, raspistill running. -/
  | captureExec
  /-- Capture: raspistill returned out; the deferred toState(stateFree) is next. -/
  | captureRelease (out : List UInt8 × GoError)
  /-- StartRecording: about to call toState(stateVideoRecording). -/
  | startGuard
  /-- StartRecording: guard won; next it creates the session and the goroutine. -/
  | startLaunch
  /-- StartRecording: in the settle delay; the non-blocking select is next. -/
  | startSettle
  /-- StartRecording: the select received initError; toState(stateFree) is next. -/
  | startRelease (initError : GoError)
  /-- StopRecording: about to call toState(stateVideoStopping). -/
  | stopGuard
  /-- StopRecording: guard won, release deferred; p.videoCtxCancel() is next. -/
  | stopCancel
  /-- StopRecording: in the settle delay; entering the select is next. -/
  | stopSettle
  /-- StopRecording: waiting in the select on the channel read from the field. -/
  | stopReceive (ch : Option Nat)
  /-- StopRecording: kill confirmed; os.Remove and the MP4Box run are next. -/
  | stopTranscode
  /-- StopRecording: result fixed; the deferred toState(stateFree) is next. -/
  | stopRelease (r : StopResult)
  /-- The call has returned (or its fault has left the function). -/
  | finished (r : Ret)
  deriving DecidableEq

/-- The record goroutine: process running, or blocked in
`p.recordingStopChan <- err` on the channel it read from the field when the
send began (unbuffered, so it waits for a receiver), or done once the outcome
was received. -/
inductive RecStatus where
  | running
  | sending (ch : Option Nat) (outcome : GoError)
  | delivered
  deriving DecidableEq

/-- One `go func()` instance of StartRecording with the context it captured. -/
structure Recorder where
  ctx : Nat
  status : RecStatus
  deriving DecidableEq

/-- The shared coordinator and everything running against it. -/
structure Sys where
  p : picam
  fresh : Nat
  cancelled : List Nat
  callers : List Pc
  recorders : List Recorder
  deriving DecidableEq

/-- A new camera with the given calls about to begin. -/
def Sys.init (callers : List Pc) : Sys :=
  { p := NewPicam, fresh := 0, cancelled := [], callers := callers, recorders := [] }

def Sys.setCaller (s : Sys) (i : Nat) (pc : Pc) : Sys :=
  { s with callers := s.callers.set i pc }

/-- One `toState` call on the shared guard. -/
def Sys.guardStep (s : Sys) (d : cameraStateEnum) : Sys × GoError :=
  let r := s.p.cameraState.toState d
  ({ s with p := { s.p with cameraState := r.1 } }, r.2)

/-- The first goroutine blocked sending on channel `ch`, with its position
(counted from `j`) and the outcome it holds. -/
def findSender (ch : Nat) : List Recorder → Nat → Option (Nat × GoError)
  | [], _ => none
  | r :: rs, j =>
    match r.status with
    | RecStatus.sending (some k) e =>
      if k = ch then some (j, e) else findSender ch rs (j + 1)
    | _ => findSender ch rs (j + 1)

/-- The channel hand-over: goroutine `j` completes its send and ends. -/
def Sys.deliver (s : Sys) (j : Nat) : Sys :=
  { s with recorders := s.recorders.modify (fun r => { r with status := RecStatus.delivered }) j }

/-- Caller `i` executes its next statement. `env` is what `cmd.Output()` yields
when that statement is the end of a raspistill or MP4Box run; it is not used
otherwise. `none` means the caller cannot move (blocked, finished, absent). -/
def Sys.stepCaller (s : Sys) (i : Nat) (env : List UInt8 × GoError) : Option Sys :=
  match s.callers.get? i with
  | none => none
  | some Pc.captureGuard =>
    let r := s.guardStep statePictureTaking
    match r.2 with
    | some e => some (r.1.setCaller i (Pc.finished (Ret.capture ([], some e))))
    | none => some (r.1.setCaller i Pc.captureExec)
  | some Pc.captureExec => some (s.setCaller i (Pc.captureRelease env))
  | some (Pc.captureRelease out) =>
    some ((s.guardStep stateFree).1.setCaller i (Pc.finished (Ret.capture out)))
  | some Pc.startGuard =>
    let r := s.guardStep stateVideoRecording
    match r.2 with
    | some e => some (r.1.setCaller i (Pc.finished (Ret.start (some e))))
    | none => some (r.1.setCaller i Pc.startLaunch)
  | some Pc.startLaunch =>
    let ctx := s.fresh
    let ch := s.fresh + 1
    let s1 : Sys :=
      { s with
        p := { s.p with videoCtx := some ctx, videoCtxCancel := some ctx,
                        recordingStopChan := some ch }
        fresh := s.fresh + 2
        recorders := s.recorders ++ [{ ctx := ctx, status := RecStatus.running }] }
    some (s1.setCaller i Pc.startSettle)
  | some Pc.startSettle =>
    -- select with default on p.recordingStopChan
    match s.p.recordingStopChan with
    | none => some (s.setCaller i (Pc.finished (Ret.start none)))
    | some ch =>
      match findSender ch s.recorders 0 with
      | some (j, initError) => some ((s.deliver j).setCaller i (Pc.startRelease initError))
      | none => some (s.setCaller i (Pc.finished (Ret.start none)))
  | some (Pc.startRelease initError) =>
    some ((s.guardStep stateFree).1.setCaller i (Pc.finished (Ret.start initError)))
  | some Pc.stopGuard =>
    let r := s.guardStep stateVideoStopping
    match r.2 with
    | some e => some (r.1.setCaller i (Pc.finished (Ret.stop (StopResult.returned "" (some e)))))
    | none => some (r.1.setCaller i Pc.stopCancel)
  | some Pc.stopCancel =>
    match s.p.videoCtxCancel with
    | none => some (s.setCaller i (Pc.stopRelease StopResult.panicked))
    | some c => some ({ s with cancelled := c :: s.cancelled }.setCaller i Pc.stopSettle)
  | some Pc.stopSettle => some (s.setCaller i (Pc.stopReceive s.p.recordingStopChan))
  | some (Pc.stopReceive none) => none
  | some (Pc.stopReceive (some ch)) =>
    match findSender ch s.recorders 0 with
    | none => none
    | some (j, none) => some ((s.deliver j).setCaller i (Pc.stopRelease StopResult.panicked))
    | some (j, some m) =>
      if m ≠ "signal: killed" then
        some ((s.deliver j).setCaller i
          (Pc.stopRelease (StopResult.returned "" (Errorf errorStopRecording m))))
      else some ((s.deliver j).setCaller i Pc.stopTranscode)
  | some Pc.stopTranscode =>
    match env.2 with
    | some e => some (s.setCaller i (Pc.stopRelease (StopResult.returned "" (some e))))
    | none => some (s.setCaller i (Pc.stopRelease (StopResult.returned "vid.mp4" none)))
  | some (Pc.stopRelease r) =>
    some ((s.guardStep stateFree).1.setCaller i (Pc.finished (Ret.stop r)))
  | some (Pc.finished _) => none

/-- The raspivid process of goroutine `j` ends and `cmd.Output()` yields
`outcome`; the goroutine then begins `p.recordingStopChan <- err`. -/
def Sys.stepExit (s : Sys) (j : Nat) (outcome : GoError) : Option Sys :=
  match s.recorders.get? j with
  | some { ctx := c, status := RecStatus.running } =>
    some { s with recorders := s.recorders.set j
                    { ctx := c, status := RecStatus.sending s.p.recordingStopChan outcome } }
  | _ => none

/-- One scheduling decision. -/
inductive Act where
  /-- Caller i runs its next statement. -/
  | call (i : Nat)
  /-- Caller i sees its external executable finish with the given output. -/
  | callEnv (i : Nat) (env : List UInt8 × GoError)
  /-- The process of record goroutine j exits with the given outcome. -/
  | exit (j : Nat) (outcome : GoError)

def Sys.step (s : Sys) : Act → Option Sys
  | Act.call i => s.stepCaller i ([], none)
  | Act.callEnv i env => s.stepCaller i env
  | Act.exit j outcome => s.stepExit j outcome

/-- Runs a schedule; `none` when some decision in it is not possible. -/
def Sys.run (s : Sys) : List Act → Option Sys
  | [] => some s
  | a :: rest =>
    match s.step a with
    | none => none
    | some s1 => s1.run rest

/-- The still-capture executable is running for this caller. -/
def Pc.capturing : Pc → Bool
  | Pc.captureExec => true
  | _ => false

/-- The caller is inside StopRecording, past the guard and not yet released. -/
def Pc.stopping : Pc → Bool
  | Pc.stopCancel => true
  | Pc.stopSettle => true
  | Pc.stopReceive _ => true
  | Pc.stopTranscode => true
  | Pc.stopRelease _ => true
  | _ => false

/-- The caller is inside StartRecording, past the guard and not yet returned. -/
def Pc.starting : Pc → Bool
  | Pc.startLaunch => true
  | Pc.startSettle => true
  | Pc.startRelease _ => true
  | _ => false

/-- A raspivid process is running. -/
def Sys.recordProcessRunning (s : Sys) : Bool :=
  s.recorders.any (fun r => r.status = RecStatus.running)

/-- The value of the shared guard, `p.cameraState.currentState`. -/
def Sys.guard (s : Sys) : cameraStateEnum := s.p.cameraState.currentState

/-- The killed-by-cancellation outcome of the record process. -/
def killed : GoError := some "signal: killed"

/-! ## The state guard -/

theorem Sprintf_errorStopRecording (a : String) :
    Sprintf errorStopRecording a = "unexpected error closing camera: " ++ a := by
  have h : String.mk (errorStopRecording.data.take (errorStopRecording.data.length - 2))
      = "unexpected error closing camera: " := by decide
  simp only [Sprintf, h]

/-- Requesting stateFree succeeds from every current value. -/
theorem toState_free (c : cameraStateEnum) :
    (cameraState.mk c).toState stateFree = (cameraState.mk stateFree, none) := by
  simp [cameraState.toState, stateFree, stateVideoStopping]

/-- C1: on the four named states toState is exactly the transition table: it
succeeds iff desired is Free, or current is Free and desired is Capturing or
Recording, or current is Recording and desired is Stopping; on success the new
state is the desired one; on failure the state is unchanged and the error is
determined by the current state. -/
theorem C1_toState_transition_table (c d : cameraStateEnum)
    (hc : c ∈ namedStates) (hd : d ∈ namedStates) :
    (((cameraState.mk c).toState d).2 = none ↔
        (d = stateFree ∨
         (c = stateFree ∧ (d = statePictureTaking ∨ d = stateVideoRecording)) ∨
         (c = stateVideoRecording ∧ d = stateVideoStopping))) ∧
    (((cameraState.mk c).toState d).2 = none →
        ((cameraState.mk c).toState d).1.currentState = d) ∧
    (((cameraState.mk c).toState d).2 ≠ none →
        ((cameraState.mk c).toState d).1.currentState = c ∧
        (c = stateFree → ((cameraState.mk c).toState d).2 =
          some "camera was not recording, unable to process stop recording request") ∧
        (c = statePictureTaking → ((cameraState.mk c).toState d).2 =
          some "camera in use, taking picture") ∧
        (c = stateVideoRecording → ((cameraState.mk c).toState d).2 =
          some "camera in use, recording video") ∧
        (c = stateVideoStopping → ((cameraState.mk c).toState d).2 =
          some "camera in use, processing a finished video")) := by
  simp only [namedStates, List.mem_cons, List.mem_singleton, List.not_mem_nil, or_false] at hc hd
  rcases hc with rfl | rfl | rfl | rfl <;> rcases hd with rfl | rfl | rfl | rfl <;> decide

/-- C1 witness: Recording to Stopping is an accepted edge. -/
theorem C1_toState_transition_table_witness :
    ((cameraState.mk stateVideoRecording).toState stateVideoStopping).2 = none ∧
    ((cameraState.mk stateVideoRecording).toState stateVideoStopping).1.currentState
      = stateVideoStopping :=
  ⟨((C1_toState_transition_table stateVideoRecording stateVideoStopping
      (by decide) (by decide)).1).2 (Or.inr (Or.inr ⟨rfl, rfl⟩)),
   (C1_toState_transition_table stateVideoRecording stateVideoStopping
      (by decide) (by decide)).2.1 (by decide)⟩

/-- C2: requesting Free never fails, from any current value (named or not);
afterwards the state is Free, so the call changes nothing when the state is
already Free and a second call changes nothing after the first. -/
theorem C2_toState_free_always_succeeds (c : cameraStateEnum) :
    ((cameraState.mk c).toState stateFree).2 = none ∧
    ((cameraState.mk c).toState stateFree).1.currentState = stateFree ∧
    (cameraState.mk stateFree).toState stateFree = (cameraState.mk stateFree, none) ∧
    (((cameraState.mk c).toState stateFree).1.toState stateFree)
      = (cameraState.mk c).toState stateFree := by
  simp [toState_free]

theorem World.toState_eq (w : World) (d : cameraStateEnum) :
    w.toState d =
      ({ w with p := { w.p with cameraState := (w.p.cameraState.toState d).1 } },
       (w.p.cameraState.toState d).2) := rfl

theorem World.free_state (w : World) : w.free.p.cameraState.currentState = stateFree := by
  obtain ⟨⟨a, b, c, ⟨s⟩⟩, l, f⟩ := w
  simp [World.free, World.toState, toState_free]

/-- A request for a non-Free state made in a non-Free state is refused and
the guard keeps its value. -/
theorem toState_refused (c d : cameraStateEnum) (hc : c ≠ stateFree) (hd : d ≠ stateFree)
    (hedge : ¬ (c = stateVideoRecording ∧ d = stateVideoStopping)) :
    ((cameraState.mk c).toState d).1 = cameraState.mk c ∧
    ((cameraState.mk c).toState d).2 ≠ none := by
  unfold cameraState.toState
  simp only [hd, if_false, hc]
  by_cases h3 : c = statePictureTaking
  · simp [h3, errorsNew]
  · by_cases h1 : c = stateVideoRecording
    · have hd2 : d ≠ stateVideoStopping := fun h => hedge ⟨h1, h⟩
      simp [h1, hd2, errorsNew, stateVideoRecording, statePictureTaking]
    · by_cases h2 : c = stateVideoStopping
      · simp [h2, errorsNew, stateVideoStopping, statePictureTaking, stateVideoRecording]
      · simp [h1, h2, h3, Errorf]

/-- C3: StartRecording called while the guard is Recording, Stopping or
Capturing fails with the matching busy error and changes nothing: the guard,
the session fields and the event log are as before, so no process is launched. -/
theorem C3_StartRecording_busy_no_mutation (w : World) (early : Option GoError)
    (h : w.p.cameraState.currentState = stateVideoRecording ∨
         w.p.cameraState.currentState = stateVideoStopping ∨
         w.p.cameraState.currentState = statePictureTaking) :
    (StartRecording w early).1 = w ∧
    newEvents w (StartRecording w early).1 = [] ∧
    (w.p.cameraState.currentState = stateVideoRecording →
      (StartRecording w early).2 = some "camera in use, recording video") ∧
    (w.p.cameraState.currentState = stateVideoStopping →
      (StartRecording w early).2 = some "camera in use, processing a finished video") ∧
    (w.p.cameraState.currentState = statePictureTaking →
      (StartRecording w early).2 = some "camera in use, taking picture") := by
  obtain ⟨⟨a, b, c, ⟨s⟩⟩, l, f⟩ := w
  simp only at h
  rcases h with rfl | rfl | rfl <;>
    simp [StartRecording, World.toState, cameraState.toState, newEvents, errorsNew,
      stateFree, stateVideoRecording, stateVideoStopping, statePictureTaking,
      errorRecordingVideo, errorProcessingVideo, errorTakingPicture]

/-- C3 witness: a second StartRecording while recording. -/
theorem C3_StartRecording_busy_no_mutation_witness :
    (StartRecording World.recording none).1 = World.recording ∧
    (StartRecording World.recording none).2 = some "camera in use, recording video" :=
  ⟨(C3_StartRecording_busy_no_mutation World.recording none (Or.inl (by decide))).1,
   (C3_StartRecording_busy_no_mutation World.recording none
      (Or.inl (by decide))).2.2.1 (by decide)⟩

/-- StartRecording from Free, the cases the code gets right: with nothing
posted at the check it succeeds and the guard is Recording; with an error
posted it returns that error and the guard is Free. -/
theorem StartRecording_from_Free (w : World) (h : w.p.cameraState.currentState = stateFree) :
    ((StartRecording w none).2 = none ∧
      (StartRecording w none).1.p.cameraState.currentState = stateVideoRecording) ∧
    (∀ m : String, (StartRecording w (some (some m))).2 = some m ∧
      (StartRecording w (some (some m))).1.p.cameraState.currentState = stateFree) := by
  obtain ⟨⟨a, b, c, ⟨s⟩⟩, l, f⟩ := w
  simp only at h
  subst h
  refine ⟨?_, fun m => ?_⟩ <;>
    simp [StartRecording, World.toState, cameraState.toState, World.emit, World.free,
      stateFree, stateVideoRecording, stateVideoStopping]

/-- C4: on a new camera (guard Free), when the record process has already
exited cleanly at the non-blocking check (nil outcome posted), StartRecording
returns nil, that is success, while the guard is Free and not Recording. -/
theorem C4_clean_early_exit_success_but_Free :
    (StartRecording World.start (some none)).2 = none ∧
    (StartRecording World.start (some none)).1.p.cameraState.currentState = stateFree ∧
    (StartRecording World.start (some none)).1.p.cameraState.currentState
      ≠ stateVideoRecording := by
  decide

/-- StopRecording accepted by the guard (Recording, session attached), for a
posted error `m`: the shape of the whole result. -/
theorem StopRecording_recording_error (w : World) (m : String) (transcode : GoError)
    (hs : w.p.cameraState.currentState = stateVideoRecording) (hl : w.sessionLive) :
    ∃ c : Nat, w.p.videoCtxCancel = some c ∧
      StopRecording w (some m) transcode =
        if m ≠ "signal: killed" then
          ({ w with p := { w.p with cameraState := { currentState := stateFree } }
                    log := w.log ++ [Event.cancel c, Event.sleep] },
           StopResult.returned "" (some ("unexpected error closing camera: " ++ m)))
        else
          ({ w with p := { w.p with cameraState := { currentState := stateFree } }
                    log := w.log ++ [Event.cancel c, Event.sleep,
                                     Event.removeFile "vid.mp4", Event.runTranscode] },
           match transcode with
           | some e => StopResult.returned "" (some e)
           | none => StopResult.returned "vid.mp4" none) := by
  obtain ⟨⟨a, b, ch, ⟨s⟩⟩, l, f⟩ := w
  simp only at hs
  subst hs
  obtain ⟨hb, hch⟩ := hl
  simp only [Option.isSome_iff_exists] at hb hch
  obtain ⟨c, rfl⟩ := hb
  obtain ⟨k, rfl⟩ := hch
  refine ⟨c, rfl, ?_⟩
  by_cases hm : m = "signal: killed"
  · subst hm
    cases transcode <;>
      simp [StopRecording, World.toState, cameraState.toState, World.emit, World.free,
        stateFree, stateVideoRecording, stateVideoStopping, statePictureTaking]
  · simp [StopRecording, World.toState, cameraState.toState, World.emit, World.free,
      stateFree, stateVideoRecording, stateVideoStopping, statePictureTaking, hm, Errorf,
      Sprintf_errorStopRecording]

/-- StopRecording accepted by the guard, for the nil outcome: the receive
yields nil, `err.Error()` faults, and the deferred release still runs. -/
theorem StopRecording_recording_nil (w : World) (transcode : GoError)
    (hs : w.p.cameraState.currentState = stateVideoRecording) (hl : w.sessionLive) :
    (StopRecording w none transcode).2 = StopResult.panicked ∧
    (StopRecording w none transcode).1.p.cameraState.currentState = stateFree ∧
    Event.runTranscode ∉ newEvents w (StopRecording w none transcode).1 := by
  obtain ⟨⟨a, b, ch, ⟨s⟩⟩, l, f⟩ := w
  simp only at hs
  subst hs
  obtain ⟨hb, hch⟩ := hl
  simp only [Option.isSome_iff_exists] at hb hch
  obtain ⟨c, rfl⟩ := hb
  obtain ⟨k, rfl⟩ := hch
  simp [StopRecording, World.toState, cameraState.toState, World.emit, World.free,
    newEvents, stateFree, stateVideoRecording, stateVideoStopping, statePictureTaking]

/-- StopRecording refused by the guard: nothing changes and the guard error is
returned with an empty filename. -/
theorem StopRecording_refused (w : World) (posted transcode : GoError)
    (h : w.p.cameraState.currentState ≠ stateVideoRecording) :
    (StopRecording w posted transcode).1 = w ∧
    (StopRecording w posted transcode).2 =
      StopResult.returned "" (w.p.cameraState.toState stateVideoStopping).2 ∧
    (w.p.cameraState.toState stateVideoStopping).2 ≠ none := by
  obtain ⟨⟨a, b, ch, ⟨s⟩⟩, l, f⟩ := w
  simp only at h
  by_cases h0 : s = stateFree
  · subst h0
    simp [StopRecording, World.toState, cameraState.toState, errorsNew,
      stateFree, stateVideoStopping]
  · have hr := toState_refused s stateVideoStopping h0 (by decide) (fun hh => h hh.1)
    obtain ⟨h1, h2⟩ := hr
    obtain ⟨e, he⟩ := Option.ne_none_iff_exists'.mp h2
    simp [StopRecording, World.toState, h1, he]

/-- The transcode executable runs in a StopRecording call only when the
outcome received from the record goroutine is the cancellation-kill error. -/
theorem StopRecording_transcode_only_after_kill (w : World) (posted transcode : GoError)
    (h : Event.runTranscode ∈ newEvents w (StopRecording w posted transcode).1) :
    posted = some "signal: killed" := by
  obtain ⟨⟨a, b, ch, cs⟩, l, f⟩ := w
  unfold StopRecording at h
  simp only [World.toState_eq] at h
  cases hr : (cs.toState stateVideoStopping).2 with
  | some e => simp [hr, newEvents] at h
  | none =>
    cases b with
    | none => simp [hr, newEvents, World.free, World.toState] at h
    | some c =>
      cases ch with
      | none => simp [hr, newEvents, World.emit] at h
      | some k =>
        cases posted with
        | none => simp [hr, newEvents, World.emit, World.free, World.toState] at h
        | some m =>
          by_cases hm : m = "signal: killed"
          · rw [hm]
          · simp [hr, newEvents, World.emit, World.free, World.toState, hm] at h

/-- C5 (as stated) fails: StopRecording called while another caller holds the
camera for a capture is refused and the guard is still Capturing afterwards,
not Free. -/
theorem C5_refused_stop_leaves_Capturing :
    (StopRecording (World.inState statePictureTaking) (some "signal: killed") none).2
      = StopResult.returned "" (some "camera in use, taking picture") ∧
    (StopRecording (World.inState statePictureTaking)
      (some "signal: killed") none).1.p.cameraState.currentState = statePictureTaking ∧
    (StopRecording (World.inState statePictureTaking)
      (some "signal: killed") none).1.p.cameraState.currentState ≠ stateFree := by
  decide

/-- C5 (amended): a StopRecording call that the guard accepts (guard Recording,
session attached) leaves the guard Free for every outcome of the record
process and of the transcode run; called in Free it is refused with the
not-recording error and the guard stays Free; called in Stopping or Capturing
it is refused with the busy error and nothing changes. -/
theorem C5_StopRecording_guard_after (w : World) (posted transcode : GoError) :
    (w.p.cameraState.currentState = stateVideoRecording → w.sessionLive →
      (StopRecording w posted transcode).1.p.cameraState.currentState = stateFree) ∧
    (w.p.cameraState.currentState = stateFree →
      (StopRecording w posted transcode).1.p.cameraState.currentState = stateFree ∧
      (StopRecording w posted transcode).2 = StopResult.returned ""
        (some "camera was not recording, unable to process stop recording request")) ∧
    (w.p.cameraState.currentState = stateVideoStopping →
      (StopRecording w posted transcode).1 = w ∧
      (StopRecording w posted transcode).2 = StopResult.returned ""
        (some "camera in use, processing a finished video")) ∧
    (w.p.cameraState.currentState = statePictureTaking →
      (StopRecording w posted transcode).1 = w ∧
      (StopRecording w posted transcode).2 = StopResult.returned ""
        (some "camera in use, taking picture")) := by
  refine ⟨fun hs hl => ?_, fun hs => ?_, fun hs => ?_, fun hs => ?_⟩
  · cases posted with
    | none => exact (StopRecording_recording_nil w transcode hs hl).2.1
    | some m =>
      obtain ⟨c, -, h⟩ := StopRecording_recording_error w m transcode hs hl
      rw [h]
      split <;> rfl
  · have hne : w.p.cameraState.currentState ≠ stateVideoRecording := by rw [hs]; decide
    obtain ⟨h1, h2, -⟩ := StopRecording_refused w posted transcode hne
    refine ⟨by rw [h1]; exact hs, ?_⟩
    rw [h2]
    obtain ⟨⟨a, b, ch, ⟨s⟩⟩, l, f⟩ := w
    simp only at hs
    subst hs
    rfl
  · have hne : w.p.cameraState.currentState ≠ stateVideoRecording := by rw [hs]; decide
    obtain ⟨h1, h2, -⟩ := StopRecording_refused w posted transcode hne
    refine ⟨h1, ?_⟩
    rw [h2]
    obtain ⟨⟨a, b, ch, ⟨s⟩⟩, l, f⟩ := w
    simp only at hs
    subst hs
    rfl
  · have hne : w.p.cameraState.currentState ≠ stateVideoRecording := by rw [hs]; decide
    obtain ⟨h1, h2, -⟩ := StopRecording_refused w posted transcode hne
    refine ⟨h1, ?_⟩
    rw [h2]
    obtain ⟨⟨a, b, ch, ⟨s⟩⟩, l, f⟩ := w
    simp only at hs
    subst hs
    rfl

/-- C5 witness: stopping a live recording whose transcode fails still frees the
guard. -/
theorem C5_StopRecording_guard_after_witness :
    World.recording.p.cameraState.currentState = stateVideoRecording ∧
    World.recording.sessionLive ∧
    (StopRecording World.recording (some "signal: killed")
      (some "exit status 1")).1.p.cameraState.currentState = stateFree :=
  ⟨by decide, by decide,
   (C5_StopRecording_guard_after World.recording (some "signal: killed")
      (some "exit status 1")).1 (by decide) (by decide)⟩

/-- C6: StopRecording called in Recording (session attached) when the record
process posted an error whose message is not "signal: killed": the result is an
empty filename with the error "unexpected error closing camera: " followed by
that message, the transcode executable is not run, and the guard is Free
afterwards. Conversely, in any call, the transcode executable runs only if the
posted outcome is the error "signal: killed". -/
theorem C6_StopRecording_unexpected_exit (w : World) (m : String) (transcode : GoError)
    (hs : w.p.cameraState.currentState = stateVideoRecording) (hl : w.sessionLive)
    (hm : m ≠ "signal: killed") :
    (StopRecording w (some m) transcode).2 =
      StopResult.returned "" (some ("unexpected error closing camera: " ++ m)) ∧
    Event.runTranscode ∉ newEvents w (StopRecording w (some m) transcode).1 ∧
    (StopRecording w (some m) transcode).1.p.cameraState.currentState = stateFree ∧
    (∀ (v : World) (posted tr : GoError),
      Event.runTranscode ∈ newEvents v (StopRecording v posted tr).1 →
        posted = some "signal: killed") := by
  obtain ⟨c, -, h⟩ := StopRecording_recording_error w m transcode hs hl
  rw [h, if_pos hm]
  refine ⟨rfl, ?_, rfl, fun v posted tr hv =>
    StopRecording_transcode_only_after_kill v posted tr hv⟩
  simp [newEvents]

/-- C6 witness: the record process died with exit status 1. -/
theorem C6_StopRecording_unexpected_exit_witness :
    (StopRecording World.recording (some "exit status 1") none).2 =
      StopResult.returned "" (some "unexpected error closing camera: exit status 1") ∧
    Event.runTranscode ∉
      newEvents World.recording (StopRecording World.recording (some "exit status 1") none).1 :=
  ⟨(C6_StopRecording_unexpected_exit World.recording "exit status 1" none
      (by decide) (by decide) (by decide)).1,
   (C6_StopRecording_unexpected_exit World.recording "exit status 1" none
      (by decide) (by decide) (by decide)).2.1⟩

/-- The position of a caller after its statement was replaced. -/
theorem Sys.setCaller_get (s : Sys) (i : Nat) (pc0 pc : Pc)
    (h : s.callers.get? i = some pc0) : (s.setCaller i pc).callers.get? i = some pc := by
  rw [List.get?_eq_getElem?] at h
  rw [List.get?_eq_getElem?]
  simp [Sys.setCaller, List.getElem?_set_self', h]

theorem Sys.guardStep_callers (s : Sys) (d : cameraStateEnum) :
    (s.guardStep d).1.callers = s.callers := rfl

theorem Sys.setCaller_guard (s : Sys) (i : Nat) (pc : Pc) :
    (s.setCaller i pc).guard = s.guard := rfl

theorem Sys.guardStep_free (s : Sys) : (s.guardStep stateFree).1.guard = stateFree := by
  obtain ⟨⟨a, b, ch, ⟨g⟩⟩, f, cn, cs, rs⟩ := s
  simp [Sys.guard, Sys.guardStep, toState_free]

/-- The guard step of Capture on a Free guard is accepted and sets Capturing. -/
theorem Sys.guardStep_capture (s : Sys) (hg : s.guard = stateFree) :
    (s.guardStep statePictureTaking).2 = none ∧
    (s.guardStep statePictureTaking).1.guard = statePictureTaking := by
  obtain ⟨⟨a, b, ch, ⟨g⟩⟩, f, cn, cs, rs⟩ := s
  simp only [Sys.guard] at hg
  subst hg
  simp [Sys.guard, Sys.guardStep, cameraState.toState, stateFree, stateVideoStopping,
    statePictureTaking]

/-- A whole Capture on a Free guard leaves the shared coordinator as it was. -/
theorem Sys.capture_restores (s : Sys) (i : Nat) (pc1 pc2 pc3 : Pc) (hg : s.guard = stateFree) :
    (((((s.guardStep statePictureTaking).1.setCaller i pc1).setCaller i pc2).guardStep
      stateFree).1.setCaller i pc3).p = s.p := by
  obtain ⟨⟨a, b, ch, ⟨g⟩⟩, f, cn, cs, rs⟩ := s
  simp only [Sys.guard] at hg
  subst hg
  simp [Sys.guardStep, Sys.setCaller, cameraState.toState, stateFree, stateVideoStopping,
    statePictureTaking]

/-- Capture step by step, guard Free at the start: the guard step sets the
guard to Capturing and only then raspistill runs; the guard is Capturing for
the whole run; the deferred release frees it and the call returns what
raspistill produced. -/
theorem Sys.capture_steps (s : Sys) (i : Nat) (out : List UInt8 × GoError)
    (hpc : s.callers.get? i = some Pc.captureGuard) (hg : s.guard = stateFree) :
    ∃ s1 s2 s3 : Sys,
      s.step (Act.call i) = some s1 ∧ s1.guard = statePictureTaking ∧
        s1.callers.get? i = some Pc.captureExec ∧
      s1.step (Act.callEnv i out) = some s2 ∧ s2.guard = statePictureTaking ∧
        s2.callers.get? i = some (Pc.captureRelease out) ∧
      s2.step (Act.call i) = some s3 ∧ s3.guard = stateFree ∧
        s3.callers.get? i = some (Pc.finished (Ret.capture out)) ∧ s3.p = s.p := by
  obtain ⟨ha, hb⟩ := Sys.guardStep_capture s hg
  have h1 : ((s.guardStep statePictureTaking).1.setCaller i Pc.captureExec).callers.get? i
      = some Pc.captureExec :=
    Sys.setCaller_get _ i Pc.captureGuard _ (by rw [Sys.guardStep_callers]; exact hpc)
  have h2 := Sys.setCaller_get _ i _ (Pc.captureRelease out) h1
  have h3 := Sys.setCaller_get
    ((((s.guardStep statePictureTaking).1.setCaller i Pc.captureExec).setCaller i
      (Pc.captureRelease out)).guardStep stateFree).1 i _ (Pc.finished (Ret.capture out))
    (by rw [Sys.guardStep_callers]; exact h2)
  refine ⟨_, _, _, ?_, ?_, h1, ?_, ?_, h2, ?_, ?_, h3, Sys.capture_restores s i _ _ _ hg⟩
  · simp only [Sys.step, Sys.stepCaller, hpc, ha]
  · rw [Sys.setCaller_guard]; exact hb
  · simp only [Sys.step, Sys.stepCaller, h1]
  · rw [Sys.setCaller_guard, Sys.setCaller_guard]; exact hb
  · simp only [Sys.step, Sys.stepCaller, h2]
  · rw [Sys.setCaller_guard]; exact Sys.guardStep_free _

/-- While the guard is Capturing, every operation that asks for the guard is
turned away with the capture-busy error and changes nothing. -/
theorem Sys.capturing_refuses (t : Sys) (j : Nat) (hg : t.guard = statePictureTaking) :
    (t.callers.get? j = some Pc.captureGuard → t.step (Act.call j) = some
      (t.setCaller j (Pc.finished (Ret.capture ([], some "camera in use, taking picture"))))) ∧
    (t.callers.get? j = some Pc.startGuard → t.step (Act.call j) = some
      (t.setCaller j (Pc.finished (Ret.start (some "camera in use, taking picture"))))) ∧
    (t.callers.get? j = some Pc.stopGuard → t.step (Act.call j) = some
      (t.setCaller j (Pc.finished (Ret.stop
        (StopResult.returned "" (some "camera in use, taking picture")))))) := by
  obtain ⟨⟨a, b, ch, ⟨g⟩⟩, f, cn, cs, rs⟩ := t
  simp only [Sys.guard] at hg
  subst hg
  refine ⟨fun h => ?_, fun h => ?_, fun h => ?_⟩ <;>
    simp only at h <;>
    simp only [Sys.step, Sys.stepCaller, h] <;>
    simp [Sys.guardStep, cameraState.toState, errorsNew,
      errorTakingPicture, stateFree, stateVideoRecording, stateVideoStopping,
      statePictureTaking]

/-- C7: Capture is a scoped acquire/release around the still-capture executable.
Called in Free it returns exactly the (bytes, error) pair the executable
produced, runs it once, and leaves the guard Free; called in any other state
it returns the error of the guard with no bytes, runs nothing and changes
nothing. Step by step (caller i of the interleaved system): from Free the
guard step sets the guard to Capturing before raspistill starts, the guard is
Capturing during the whole run, and the deferred release frees it on return;
while the guard is Capturing every other Capture, StartRecording or
StopRecording is turned away with the capture-busy error; and from a non-Free
guard the caller finishes at once with the guard error, never reaching the
executable, and the shared coordinator is unchanged. -/
theorem C7_Capture_scoped (w : World) (out : List UInt8 × GoError) (s : Sys) (i : Nat)
    (hpc : s.callers.get? i = some Pc.captureGuard) :
    (w.p.cameraState.currentState = stateFree →
      (Capture w out).2 = out ∧
      (Capture w out).1.p.cameraState.currentState = stateFree ∧
      (Capture w out).1 = { w with log := w.log ++ [Event.runCapture] }) ∧
    (w.p.cameraState.currentState ≠ stateFree →
      (Capture w out).2 = ([], (w.p.cameraState.toState statePictureTaking).2) ∧
      (w.p.cameraState.toState statePictureTaking).2 ≠ none ∧
      newEvents w (Capture w out).1 = [] ∧
      (Capture w out).1 = w) ∧
    (s.guard = stateFree →
      ∃ s1 s2 s3 : Sys,
        s.step (Act.call i) = some s1 ∧ s1.guard = statePictureTaking ∧
          s1.callers.get? i = some Pc.captureExec ∧
        s1.step (Act.callEnv i out) = some s2 ∧ s2.guard = statePictureTaking ∧
          s2.callers.get? i = some (Pc.captureRelease out) ∧
        s2.step (Act.call i) = some s3 ∧ s3.guard = stateFree ∧
          s3.callers.get? i = some (Pc.finished (Ret.capture out)) ∧
        (s.p = w.p → s3.p = (Capture w out).1.p) ∧
        (∀ j : Nat,
          (s1.callers.get? j = some Pc.captureGuard → s1.step (Act.call j) = some
            (s1.setCaller j
              (Pc.finished (Ret.capture ([], some "camera in use, taking picture"))))) ∧
          (s1.callers.get? j = some Pc.startGuard → s1.step (Act.call j) = some
            (s1.setCaller j
              (Pc.finished (Ret.start (some "camera in use, taking picture"))))) ∧
          (s1.callers.get? j = some Pc.stopGuard → s1.step (Act.call j) = some
            (s1.setCaller j (Pc.finished (Ret.stop
              (StopResult.returned "" (some "camera in use, taking picture")))))))) ∧
    (s.guard ≠ stateFree →
      ∃ e : String, (s.p.cameraState.toState statePictureTaking).2 = some e ∧
        s.step (Act.call i) = some
          (s.setCaller i (Pc.finished (Ret.capture ([], some e)))) ∧
        (s.p = w.p → (Capture w out).2 = ([], some e))) := by
  refine ⟨fun hs => ?_, fun hs => ?_, fun hg => ?_, fun hg => ?_⟩
  · obtain ⟨⟨a, b, ch, ⟨g⟩⟩, l, f⟩ := w
    simp only at hs
    subst hs
    simp [Capture, World.toState, cameraState.toState, World.emit, World.free,
      stateFree, stateVideoStopping, statePictureTaking]
  · obtain ⟨⟨a, b, ch, ⟨g⟩⟩, l, f⟩ := w
    simp only at hs
    obtain ⟨h1, h2⟩ := toState_refused g statePictureTaking hs (by decide)
      (fun hh => absurd hh.2 (by decide))
    obtain ⟨e, he⟩ := Option.ne_none_iff_exists'.mp h2
    simp [Capture, World.toState, h1, he, newEvents]
  · obtain ⟨s1, s2, s3, h1, g1, c1, h2, g2, c2, h3, g3, c3, hp⟩ :=
      Sys.capture_steps s i out hpc hg
    refine ⟨s1, s2, s3, h1, g1, c1, h2, g2, c2, h3, g3, c3, fun hw => ?_,
      fun j => Sys.capturing_refuses s1 j g1⟩
    rw [hp, hw]
    obtain ⟨⟨a, b, ch, ⟨g⟩⟩, l, f⟩ := w
    have hg2 : g = stateFree := by
      have := hg
      rw [Sys.guard, hw] at this
      exact this
    subst hg2
    simp [Capture, World.toState, cameraState.toState, World.emit, World.free,
      stateFree, stateVideoStopping, statePictureTaking]
  · obtain ⟨⟨a, b, ch, ⟨g⟩⟩, f, cn, cs, rs⟩ := s
    simp only [Sys.guard] at hg
    obtain ⟨h1, h2⟩ := toState_refused g statePictureTaking hg (by decide)
      (fun hh => absurd hh.2 (by decide))
    obtain ⟨e, he⟩ := Option.ne_none_iff_exists'.mp h2
    refine ⟨e, he, ?_, fun hw => ?_⟩
    · simp only at hpc
      simp only [Sys.step, Sys.stepCaller, hpc]
      simp [Sys.guardStep, h1, he]
    · obtain ⟨wp, l, f2⟩ := w
      simp only at hw
      subst hw
      simp [Capture, World.toState, he]

/-- C7 witness: a capture on a new camera that yields bytes and an error, seen
as one call and as the single caller of the interleaved system, where the
guard is Capturing once the guard step is done. -/
theorem C7_Capture_scoped_witness :
    (Capture World.start ([255, 216], some "exit status 64")).2
      = ([255, 216], some "exit status 64") ∧
    (∃ s1 : Sys, (Sys.init [Pc.captureGuard]).step (Act.call 0) = some s1 ∧
      s1.guard = statePictureTaking ∧ s1.callers.get? 0 = some Pc.captureExec) :=
  ⟨((C7_Capture_scoped World.start ([255, 216], some "exit status 64")
      (Sys.init [Pc.captureGuard]) 0 (by decide)).1 (by decide)).1,
   by
     obtain ⟨s1, _, _, h1, g1, c1, _⟩ :=
       (C7_Capture_scoped World.start ([255, 216], some "exit status 64")
         (Sys.init [Pc.captureGuard]) 0 (by decide)).2.2.1 (by decide)
     exact ⟨s1, h1, g1, c1⟩⟩

/-- C9: StopRecording on a live recording whose process exited cleanly (nil
posted on the completion channel) does not return: it ends in a runtime
fault, where a posted error gives a normal return. -/
theorem C9_StopRecording_nil_outcome_faults :
    (StopRecording World.recording none none).2 = StopResult.panicked ∧
    (StopRecording World.recording (some "signal: killed") none).2
      = StopResult.returned "vid.mp4" none := by
  decide

/-! ## Concurrent callers -/

/-- The scenario of the specification, one call after the other: StartRecording
succeeds, a second StartRecording is refused, StopRecording yields the file
and the guard is Free again. -/
theorem Sys.run_start_start_stop :
    ((Sys.init [Pc.startGuard, Pc.startGuard, Pc.stopGuard]).run
      [Act.call 0, Act.call 0, Act.call 0, Act.call 1,
       Act.call 2, Act.call 2, Act.exit 0 killed, Act.call 2, Act.call 2,
       Act.callEnv 2 ([], none), Act.call 2]).map
        (fun s => (s.callers, s.p.cameraState.currentState))
      = some ([Pc.finished (Ret.start none),
               Pc.finished (Ret.start (some "camera in use, recording video")),
               Pc.finished (Ret.stop (StopResult.returned "vid.mp4" none))],
              stateFree) := by
  decide

/-- C8: mutual exclusion fails in an interleaving. StartRecording (caller 0)
wins the guard and launches the recorder; during its settle delay StopRecording
(caller 1) wins Recording to Stopping and cancels; the killed process posts its
outcome; the non-blocking select of caller 0 receives it and frees the guard
although caller 1 holds it. Then either a Capture (caller 2) wins the guard and
runs raspistill while StopRecording is still in progress, or a second
StartRecording (caller 2) wins it and launches a new record process while the
StopRecording is still in progress. -/
theorem C8_early_release_breaks_exclusion :
    ((Sys.init [Pc.startGuard, Pc.stopGuard, Pc.captureGuard]).run
      [Act.call 0, Act.call 0, Act.call 1, Act.call 1, Act.exit 0 killed,
       Act.call 0, Act.call 0, Act.call 2]).map
        (fun s => (s.callers, s.p.cameraState.currentState))
      = some ([Pc.finished (Ret.start killed), Pc.stopSettle, Pc.captureExec],
              statePictureTaking) ∧
    ((Sys.init [Pc.startGuard, Pc.stopGuard, Pc.startGuard]).run
      [Act.call 0, Act.call 0, Act.call 1, Act.call 1, Act.exit 0 killed,
       Act.call 0, Act.call 0, Act.call 2, Act.call 2]).map
        (fun s => (s.callers, s.p.cameraState.currentState, s.recordProcessRunning))
      = some ([Pc.finished (Ret.start killed), Pc.stopSettle, Pc.startSettle],
              stateVideoRecording, true) ∧
    Pc.stopping Pc.stopSettle = true ∧ Pc.capturing Pc.captureExec = true ∧
    Pc.starting Pc.startSettle = true := by
  decide

end camera
